import Mathlib

/-!
Verification development for the Agent-Adventures repository.

The development shallowly embeds the two components that the claims under
scrutiny talk about:

* `ReActAgent` - the bounded plan-refinement loop of
  src/01-ReAct/01-Example/react_weather_agent.py together with the
  configuration constants of src/01-ReAct/01-Example/config.py.
* `FixedAutomation` - the fixed weather-report workflow of
  src/00-Fixed-Automation/00-Example/weather_agent.py.

Modelling conventions, used throughout:

* Python floats are modelled as rationals.  The program only ever adds or
  subtracts the literal 0.1 and clamps with min/max, so the value-level
  behaviour is identical.
* Wall-clock timestamps (datetime.datetime.now().isoformat() and strftime
  renderings) are modelled as strings supplied by an explicit clock
  parameter: one clock value is consumed per now() call, in program order.
* Calls to the external Ollama text-generation endpoint, together with the
  json.loads parse of the free-text response, are modelled as explicit
  oracle parameters.  The reasoning call of iteration i receives index i;
  quantifying over all oracles covers every possible endpoint behaviour.
* Exceptions are modelled with Except / an explicit exit marker; dict and
  list values are modelled as structures and lists.  For the one claim that
  is about object identity (the shallow plan.copy() snapshot), a second,
  heap-indexed model is given in which the completed_steps list lives in an
  explicit store, mirroring Python reference semantics.
-/

namespace ReActAgent

/-- Timestamps are abstract strings; the programs never inspect them. -/
abbrev Timestamp := String

/-- Models the Python expression `needle in hay` on strings
(substring containment). -/
def strContains (hay needle : String) : Bool :=
  hay.data.tails.any (fun t => needle.data.isPrefixOf t)

/-- Models Python str.lower().  The step names dispatched on are ASCII, where
per-character lowering agrees with Python semantics. -/
def py_lower (s : String) : String := String.mk (s.data.map Char.toLower)

-- Configuration constants from src/01-ReAct/01-Example/config.py.

/-- config.py line 31: MAX_PLANNING_ITERATIONS = 5. -/
def MAX_PLANNING_ITERATIONS : Nat := 5

/-- config.py line 32: PLANNING_CONFIDENCE_THRESHOLD = 0.7. -/
def PLANNING_CONFIDENCE_THRESHOLD : ℚ := 7/10

/-- config.py line 13: DEFAULT_CITY = "London". -/
def DEFAULT_CITY : String := "London"

/-- Steps of PLANNING_TEMPLATES["outdoor_activity"] (config.py). -/
def outdoor_activity_steps : List String :=
  ["Analyze weather conditions",
   "Identify suitable activities",
   "Plan activity timeline",
   "Prepare contingency plans",
   "Finalize activity plan"]

/-- Steps of PLANNING_TEMPLATES["travel_planning"] (config.py). -/
def travel_planning_steps : List String :=
  ["Research destination weather",
   "Plan weather-appropriate activities",
   "Pack appropriate clothing",
   "Plan indoor alternatives",
   "Create flexible itinerary"]

/-- Steps of PLANNING_TEMPLATES["daily_schedule"] (config.py). -/
def daily_schedule_steps : List String :=
  ["Check weather forecast",
   "Optimize outdoor activities",
   "Schedule indoor alternatives",
   "Plan weather-dependent tasks",
   "Create flexible schedule"]

/-- PLANNING_TEMPLATES (config.py lines 136-164), as an association list
from task type to the "steps" entry of the template. -/
def PLANNING_TEMPLATES : List (String × List String) :=
  [("outdoor_activity", outdoor_activity_steps),
   ("travel_planning", travel_planning_steps),
   ("daily_schedule", daily_schedule_steps)]

/-- The task-analysis record parsed from the LLM JSON response in
_analyze_task.  Parsed JSON may omit any key, hence every field is optional;
consumers read fields through .get with defaults, modelled by Option.getD. -/
structure TaskAnalysis where
  task_type : Option String
  weather_requirements : Option String
  time_horizon : Option ℚ
  location : Option String
  constraints : Option String
  success_criteria : Option String
  confidence : Option ℚ
deriving DecidableEq

/-- The hard-coded fallback record returned by _analyze_task when the
Ollama call raises or its response is not valid JSON
(react_weather_agent.py lines 123-131). -/
def default_task_analysis : TaskAnalysis :=
  { task_type := some "general_weather_planning"
    weather_requirements := some "moderate_conditions"
    time_horizon := some 3
    location := some DEFAULT_CITY
    constraints := some "none"
    success_criteria := some "successful_activity_completion"
    confidence := some (1/2) }

/-- _analyze_task (react_weather_agent.py lines 88-131): one call to the
generation endpoint, one json.loads; any exception or parse failure yields
the fixed default record.  The single call is modelled by the single
call_result argument; parse_json models json.loads producing a structured
record or failing.  There is no retry: the call result is consumed once. -/
def analyze_task (call_result : Except String String)
    (parse_json : String → Option TaskAnalysis) : TaskAnalysis :=
  match call_result with
  | .error _ => default_task_analysis
  | .ok s =>
    match parse_json s with
    | none => default_task_analysis
    | some a => a

/-- The reasoning record parsed in _reason_about_current_state.  Its content
is never read by the rest of the program (only printed). -/
structure Reasoning where
  current_status : String
  issues_identified : List String
  next_priorities : List String
  reasoning : String
  confidence : ℚ
deriving DecidableEq

/-- The fallback reasoning record (react_weather_agent.py lines 238-244). -/
def default_reasoning : Reasoning :=
  { current_status := "planning_in_progress"
    issues_identified := []
    next_priorities := ["continue_planning"]
    reasoning := "Basic planning continuation"
    confidence := 1/2 }

/-- _reason_about_current_state (lines 204-244): the oracle result stands
for the Ollama call plus json.loads; on failure the fixed default record is
substituted. -/
def reason_about_current_state (oracle_result : Option Reasoning) : Reasoning :=
  oracle_result.getD default_reasoning

/-- The result dict of an executed action.  All four step executors return
status, success and message; data payloads duplicated from the plan fields
(weather_conditions, activities, contingency_plans) are not repeated here
since no consumer reads them from the result. -/
structure ActionResult where
  status : String
  success : Bool
  message : Option String
deriving DecidableEq

/-- A completed-step record appended to plan["completed_steps"]
(react_weather_agent.py lines 325-330). -/
structure StepRecord where
  step : String
  step_index : Nat
  result : ActionResult
  completed_at : Timestamp
deriving DecidableEq

/-- The plan dict built by _create_initial_plan (lines 150-161).
completed_at and summary are absent until _finalize_plan adds them, hence
Option. -/
structure Plan where
  task_type : String
  status : String
  steps : List String
  current_step : Nat
  completed_steps : List StepRecord
  weather_conditions : List (String × String)
  activities : List String
  contingency_plans : List String
  confidence : ℚ
  created_at : Timestamp
  completed_at : Option Timestamp
  summary : Option String
deriving DecidableEq

/-- PLANNING_TEMPLATES.get(task_type, PLANNING_TEMPLATES["outdoor_activity"])
(react_weather_agent.py line 147). -/
def template_lookup (task_type : String) : List String :=
  (PLANNING_TEMPLATES.lookup task_type).getD outdoor_activity_steps

/-- _create_initial_plan (lines 133-164). -/
def create_initial_plan (task_analysis : TaskAnalysis) (now : Timestamp) : Plan :=
  let task_type := task_analysis.task_type.getD "general_weather_planning"
  { task_type := task_type
    status := "planning"
    steps := template_lookup task_type
    current_step := 0
    completed_steps := []
    weather_conditions := []
    activities := []
    contingency_plans := []
    confidence := task_analysis.confidence.getD (1/2)
    created_at := now
    completed_at := none
    summary := none }

/-- The action dict built by _determine_next_action.  Only these two shapes
are ever constructed (lines 261-274); the "unknown action" arm of
_execute_action therefore corresponds to no constructor. -/
inductive NextAction where
  | execute_step (step : String) (step_index : Nat) (priority : String)
  | finalize_plan (priority : String)
deriving DecidableEq

/-- _determine_next_action (lines 246-277).  The reasoning argument is
accepted and ignored, exactly as in the source. -/
def determine_next_action (plan : Plan) (_reasoning : Reasoning) : NextAction :=
  if h : plan.current_step < plan.steps.length then
    .execute_step (plan.steps.get ⟨plan.current_step, h⟩) plan.current_step "high"
  else
    .finalize_plan "high"

/-- The mock weather record returned by _get_weather_data (lines 541-564). -/
structure WeatherData where
  location : String
  temperature : Int
  humidity : Int
  wind_speed : Int
  description : String
  forecast : List (String × Int × String)
deriving DecidableEq

/-- _get_weather_data (lines 541-564): canned data, no real API call. -/
def get_weather_data (location : String) : WeatherData :=
  { location := location
    temperature := 22
    humidity := 65
    wind_speed := 10
    description := "partly cloudy"
    forecast := [("today", 22, "partly cloudy"),
                 ("tomorrow", 25, "sunny"),
                 ("day_after", 20, "rainy")] }

/-- _analyze_weather_conditions (lines 566-583), producing the
weather_conditions dict. -/
def analyze_weather_conditions (w : WeatherData) : List (String × String) :=
  [("overall_condition", w.description),
   ("temperature_range", toString w.temperature ++ "°C"),
   ("humidity", toString w.humidity ++ "%"),
   ("wind_conditions", toString w.wind_speed ++ " km/h"),
   ("planning_recommendation",
     if 15 < w.temperature then "suitable_for_outdoor_activities"
     else "consider_indoor_alternatives")]

/-- _select_weather_appropriate_activities (lines 585-602).  The unused
local variable condition of the source is elided. -/
def select_weather_appropriate_activities (weather_conditions : List (String × String))
    (_task_analysis : TaskAnalysis) : List String :=
  let recommendation := (weather_conditions.lookup "planning_recommendation").getD ""
  if strContains recommendation "outdoor" then
    ["hiking", "picnic", "outdoor_photography", "gardening"]
  else
    ["indoor_museum", "cooking", "reading", "indoor_exercise"]

/-- _create_contingency_plans (lines 604-620): a fixed list. -/
def create_contingency_plans (_plan : Plan) (_task_analysis : TaskAnalysis) : List String :=
  ["Indoor alternative activities",
   "Weather-appropriate clothing recommendations",
   "Flexible timing for outdoor activities",
   "Emergency weather response plan"]

/-- _execute_weather_step (lines 336-361). -/
def execute_weather_step (plan : Plan) (task_analysis : TaskAnalysis) :
    ActionResult × Plan :=
  let weather_data := get_weather_data (task_analysis.location.getD DEFAULT_CITY)
  let weather_analysis := analyze_weather_conditions weather_data
  ({ status := "weather_analyzed", success := true,
     message := some "Weather conditions analyzed successfully" },
   { plan with weather_conditions := weather_analysis })

/-- _execute_activity_step (lines 363-388). -/
def execute_activity_step (plan : Plan) (task_analysis : TaskAnalysis) :
    ActionResult × Plan :=
  let activities :=
    select_weather_appropriate_activities plan.weather_conditions task_analysis
  ({ status := "activities_planned", success := true,
     message := some "Activities planned successfully" },
   { plan with activities := activities })

/-- _execute_contingency_step (lines 390-412). -/
def execute_contingency_step (plan : Plan) (task_analysis : TaskAnalysis) :
    ActionResult × Plan :=
  let contingency_plans := create_contingency_plans plan task_analysis
  ({ status := "contingencies_planned", success := true,
     message := some "Contingency plans created successfully" },
   { plan with contingency_plans := contingency_plans })

/-- _execute_general_step (lines 414-432); the time.sleep is a no-op for
the value semantics. -/
def execute_general_step (step : String) (plan : Plan)
    (_task_analysis : TaskAnalysis) : ActionResult × Plan :=
  ({ status := "step_completed", success := true,
     message := some ("Step " ++ step ++ " completed successfully") },
   plan)

/-- The step-kind dispatch of _execute_planning_step (lines 314-322):
substring match on the lowered step name. -/
def step_dispatch (step : String) (plan : Plan) (task_analysis : TaskAnalysis) :
    ActionResult × Plan :=
  if strContains (py_lower step) "weather" then
    execute_weather_step plan task_analysis
  else if strContains (py_lower step) "activity" then
    execute_activity_step plan task_analysis
  else if strContains (py_lower step) "contingency" then
    execute_contingency_step plan task_analysis
  else
    execute_general_step step plan task_analysis

/-- _execute_planning_step (lines 300-334): dispatch, append the
completed-step record, advance current_step. -/
def execute_planning_step (step : String) (step_index : Nat) (plan : Plan)
    (task_analysis : TaskAnalysis) (now : Timestamp) : ActionResult × Plan :=
  let pr := step_dispatch step plan task_analysis
  (pr.1,
   { pr.2 with
     completed_steps := pr.2.completed_steps ++
       [{ step := step, step_index := step_index, result := pr.1,
          completed_at := now }]
     current_step := step_index + 1 })

/-- The Python exceptions that can escape the loop body.  The only one is
the AttributeError raised by the finalize_plan arm of _execute_action,
which calls the undefined method _finalize_planning (line 293). -/
inductive PyError where
  | attributeError (name : String)
deriving DecidableEq

/-- _execute_action (lines 279-298).  The execute_step arm runs
_execute_planning_step; the finalize_plan arm dispatches to the undefined
_finalize_planning and hence raises AttributeError. -/
def execute_action (action : NextAction) (plan : Plan)
    (task_analysis : TaskAnalysis) (now : Timestamp) :
    Except PyError (ActionResult × Plan) :=
  match action with
  | .execute_step step idx _ =>
      .ok (execute_planning_step step idx plan task_analysis now)
  | .finalize_plan _ => .error (.attributeError "_finalize_planning")

/-- A planning-history entry (lines 458-463). -/
structure HistoryEntry where
  iteration : Nat
  action_result : ActionResult
  plan_state : Plan
  timestamp : Timestamp
deriving DecidableEq

/-- _update_plan_based_on_result (lines 434-465): status and confidence
update, and the history entry the function appends to
self.planning_history (the caller performs the append in this embedding).
The snapshot stores the plan after both updates, as plan.copy() does. -/
def update_plan_based_on_result (plan : Plan) (action_result : ActionResult)
    (iteration : Nat) (now : Timestamp) : Plan × HistoryEntry :=
  let plan :=
    { plan with
      status := if action_result.success then "planning_in_progress"
                else "planning_failed" }
  let plan :=
    { plan with
      confidence :=
        if action_result.success then min (plan.confidence + 1/10) 1
        else max (plan.confidence - 1/10) 0 }
  (plan,
   { iteration := iteration, action_result := action_result,
     plan_state := plan, timestamp := now })

/-- _is_planning_complete (lines 467-489). -/
def is_planning_complete (plan : Plan) : Bool :=
  let all_steps_completed := decide (plan.steps.length ≤ plan.current_step)
  let confidence_met := decide (PLANNING_CONFIDENCE_THRESHOLD ≤ plan.confidence)
  let has_weather := !plan.weather_conditions.isEmpty
  let has_activities := !plan.activities.isEmpty
  let has_contingencies := !plan.contingency_plans.isEmpty
  all_steps_completed && (confidence_met &&
    (has_weather && (has_activities && has_contingencies)))

/-- How a run of the iteration loop ended: early break on completeness,
exhaustion of the iteration budget, or a propagated Python exception. -/
inductive LoopExit where
  | completedEarly
  | maxIterations
  | raised (e : PyError)
deriving DecidableEq

/-- True exactly on the exception exit. -/
def LoopExit.isRaised : LoopExit → Bool
  | .raised _ => true
  | _ => false

/-- The observable outcome of _execute_planning_iterations: the final plan,
the number of loop-body executions performed (the value of
self.planning_iteration at exit, counting a partially executed raising body
as performed), the planning history, the clock position, and the exit kind. -/
structure LoopResult where
  plan : Plan
  iterationsRun : Nat
  history : List HistoryEntry
  tick : Nat
  exit : LoopExit
deriving DecidableEq

/-- The while loop of _execute_planning_iterations (lines 180-201), embedded
with explicit fuel: a call with counter value iter runs with
fuel = MAX_PLANNING_ITERATIONS - iter, so the guard
planning_iteration < MAX_PLANNING_ITERATIONS is fuel > 0.
Each body: reason (one oracle draw, indexed by the iteration counter),
determine the next action, execute it (a raised exception propagates),
update the plan and append the history entry, then break if planning is
complete, else increment the counter and continue.  Two clock values are
consumed per executed step: the completed_at stamp and the history stamp. -/
def planning_loop (analysis : TaskAnalysis) (oracle : Nat → Option Reasoning)
    (clock : Nat → Timestamp) :
    Nat → Nat → Plan → List HistoryEntry → Nat → LoopResult
  | 0, iter, plan, hist, tick =>
    { plan := plan, iterationsRun := iter, history := hist, tick := tick,
      exit := .maxIterations }
  | fuel + 1, iter, plan, hist, tick =>
    let reasoning := reason_about_current_state (oracle iter)
    match execute_action (determine_next_action plan reasoning) plan analysis
        (clock tick) with
    | .error e =>
      { plan := plan, iterationsRun := iter + 1, history := hist,
        tick := tick, exit := .raised e }
    | .ok rp =>
      let upd := update_plan_based_on_result rp.2 rp.1 iter (clock (tick + 1))
      let hist2 := hist ++ [upd.2]
      if is_planning_complete upd.1 then
        { plan := upd.1, iterationsRun := iter + 1, history := hist2,
          tick := tick + 2, exit := .completedEarly }
      else
        planning_loop analysis oracle clock fuel (iter + 1) upd.1 hist2
          (tick + 2)

/-- _execute_planning_iterations (lines 166-202): counter reset to 0, full
iteration budget.  hist0 is the prior content of self.planning_history. -/
def execute_planning_iterations (analysis : TaskAnalysis)
    (oracle : Nat → Option Reasoning) (clock : Nat → Timestamp) (plan : Plan)
    (hist0 : List HistoryEntry) (tick : Nat) : LoopResult :=
  planning_loop analysis oracle clock MAX_PLANNING_ITERATIONS 0 plan hist0 tick

/-- _generate_plan_summary (lines 514-539).  Numeric formatting (the
Python .1 percent format) and the Python repr of dicts and lists are
abstracted to toString / intercalated renderings; no claim depends on the
summary text. -/
def generate_plan_summary (plan : Plan) : String :=
  ("Weather Planning Summary\n=======================\nTask Type: "
    ++ plan.task_type ++ "\nStatus: " ++ plan.status ++ "\nConfidence: "
    ++ toString plan.confidence ++ "\nSteps Completed: "
    ++ toString plan.completed_steps.length ++ "\n\nWeather Conditions: "
    ++ String.intercalate ", "
        (plan.weather_conditions.map (fun p => p.1 ++ ": " ++ p.2))
    ++ "\nPlanned Activities: " ++ String.intercalate ", " plan.activities
    ++ "\nContingency Plans: "
    ++ String.intercalate ", " plan.contingency_plans
    ++ "\n\nPlan created at: " ++ plan.created_at
    ++ "\nPlan completed at: " ++ (plan.completed_at.getD "Unknown"))

/-- _finalize_plan (lines 491-512): called unconditionally after the loop;
marks the plan completed, stamps completed_at, attaches the summary. -/
def finalize_plan (plan : Plan) (now : Timestamp) : Plan :=
  let plan := { plan with status := "completed", completed_at := some now }
  { plan with summary := some (generate_plan_summary plan) }

/-- plan_weather_activity (lines 62-86): analyze, build the initial plan,
run the iterations, finalize.  A PyError propagating from the loop escapes
the method. -/
def plan_weather_activity (call_result : Except String String)
    (parse_json : String → Option TaskAnalysis)
    (oracle : Nat → Option Reasoning) (clock : Nat → Timestamp) :
    Except PyError (Plan × List HistoryEntry) :=
  let analysis := analyze_task call_result parse_json
  let initial := create_initial_plan analysis (clock 0)
  let r := execute_planning_iterations analysis oracle clock initial [] 1
  match r.exit with
  | .raised e => .error e
  | _ => .ok (finalize_plan r.plan (clock r.tick), r.history)

/-!
Heap-indexed model for the planning history snapshots.

In Python, _update_plan_based_on_result stores plan.copy() - a SHALLOW
copy: the copy has its own key table (so later rebindings of top-level keys
such as status, confidence, current_step, weather_conditions do not affect
it), but it shares the completed_steps LIST OBJECT with the live plan, and
_execute_planning_step mutates that list in place with .append.  The value
model above cannot express this sharing, so the iteration body is repeated
here over an explicit store of list objects addressed by references.
All other plan fields are only ever rebound to freshly built values, never
mutated in place, so they are kept as plain values in the plan record.
-/

/-- A plan dict in the heap model: identical to Plan except that
completed_steps is a reference into the store of list objects. -/
structure PlanH where
  task_type : String
  status : String
  steps : List String
  current_step : Nat
  completed_steps_ref : Nat
  weather_conditions : List (String × String)
  activities : List String
  contingency_plans : List String
  confidence : ℚ
  created_at : Timestamp

/-- The mutable program state: the live plan, the store of list objects,
and self.planning_history, whose entries hold shallow copies of the plan
(same completed_steps_ref). -/
structure HeapState where
  plan : PlanH
  heap : Nat → List StepRecord
  history : List (Nat × PlanH)

/-- In-place mutation of the list object at reference r. -/
def heap_write (h : Nat → List StepRecord) (r : Nat) (v : List StepRecord) :
    Nat → List StepRecord :=
  fun x => if x = r then v else h x

/-- The mutating tail of _execute_planning_step (lines 325-332):
plan["completed_steps"].append(record) mutates the shared list object;
plan["current_step"] = step_index + 1 rebinds a top-level key.  The
step-kind dispatch rebinds weather_conditions / activities /
contingency_plans to freshly built values and is value-like, so it is not
repeated here. -/
def execute_planning_step_h (step : String) (step_index : Nat)
    (result : ActionResult) (now : Timestamp) (s : HeapState) : HeapState :=
  let r := s.plan.completed_steps_ref
  { s with
    heap := heap_write s.heap r
      (s.heap r ++ [{ step := step, step_index := step_index,
                      result := result, completed_at := now }])
    plan := { s.plan with current_step := step_index + 1 } }

/-- _update_plan_based_on_result in the heap model (lines 434-465): rebind
status and confidence on the live plan, then append a history entry holding
plan.copy() - the shallow copy is the PlanH value itself, sharing
completed_steps_ref with the live plan. -/
def update_plan_based_on_result_h (result : ActionResult) (iteration : Nat)
    (_now : Timestamp) (s : HeapState) : HeapState :=
  let plan :=
    { s.plan with
      status := if result.success then "planning_in_progress"
                else "planning_failed" }
  let plan :=
    { plan with
      confidence :=
        if result.success then min (plan.confidence + 1/10) 1
        else max (plan.confidence - 1/10) 0 }
  { s with plan := plan, history := s.history ++ [(iteration, plan)] }

/-- One executed-step iteration body in the heap model: step execution
followed by the plan update and history append. -/
def iteration_h (step : String) (step_index iteration : Nat)
    (result : ActionResult) (now1 now2 : Timestamp) (s : HeapState) :
    HeapState :=
  update_plan_based_on_result_h result iteration now2
    (execute_planning_step_h step step_index result now1 s)

/-- Dereference the completed_steps list a history entry observes. -/
def observed_completed_steps (s : HeapState) (p : PlanH) : List StepRecord :=
  s.heap p.completed_steps_ref

/-- A concrete initial heap state for counterexample runs: the plan of
_create_initial_plan with its empty completed_steps list allocated at
reference 0. -/
def initial_heap_state : HeapState :=
  { plan :=
    { task_type := "general_weather_planning"
      status := "planning"
      steps := outdoor_activity_steps
      current_step := 0
      completed_steps_ref := 0
      weather_conditions := []
      activities := []
      contingency_plans := []
      confidence := 1/2
      created_at := "t0" }
    heap := fun _ => []
    history := [] }

/-- The heap state after the first iteration of the run on the
outdoor_activity template: step 0 is "Analyze weather conditions", a
weather step, whose executor returns the weather_analyzed result. -/
def heap_demo_state_1 : HeapState :=
  iteration_h "Analyze weather conditions" 0 0
    { status := "weather_analyzed", success := true,
      message := some "Weather conditions analyzed successfully" }
    "t1" "t2" initial_heap_state

/-- The heap state after the second iteration: step 1 is
"Identify suitable activities", which matches no dispatch keyword (the
substring activity does not occur in activities) and runs the general
executor. -/
def heap_demo_state_2 : HeapState :=
  iteration_h "Identify suitable activities" 1 1
    { status := "step_completed", success := true,
      message := some "Step Identify suitable activities completed successfully" }
    "t3" "t4" heap_demo_state_1

/-- Specification-side bookkeeping for a loop call entered with counter
iter and fuel remaining iterations, on a plan whose steps all get executed:
the loop ends by the completeness break or by budget exhaustion (never by
an exception), steps are immutable, current_step tracks the number of
executed bodies, and one completed-step record is appended per body. -/
def loop_invariant (plan0 : Plan) (iter fuel : Nat) (r : LoopResult) : Prop :=
  ((r.exit = LoopExit.completedEarly ∧ is_planning_complete r.plan = true)
    ∨ (r.exit = LoopExit.maxIterations ∧ r.iterationsRun = iter + fuel))
  ∧ r.plan.steps = plan0.steps
  ∧ r.plan.current_step = r.iterationsRun
  ∧ r.plan.completed_steps.length
      = plan0.completed_steps.length + (r.iterationsRun - iter)
  ∧ iter ≤ r.iterationsRun ∧ r.iterationsRun ≤ iter + fuel

end ReActAgent

namespace FixedAutomation

/-- Outcome of one HTTP request made with the requests library: a response
with a status code and body, or a raised
requests.exceptions.ConnectionError / Timeout. -/
inductive HttpOutcome (α : Type) where
  | response (status : Nat) (body : α)
  | connectionError
  | timeout
deriving DecidableEq

/-- Python exceptions escaping the workflow steps.  Non-200 statuses are
re-raised as generic Exception by the source; connection errors and
timeouts from the weather request propagate as their own types. -/
inductive PyExc where
  | exception (msg : String)
  | connectionError
  | timeout
deriving DecidableEq

/-- The OpenWeatherMap response body, restricted to the keys
parse_weather_data reads (weather_agent.py lines 95-105). -/
structure WeatherJson where
  name : String
  sys_country : String
  main_temp : ℚ
  main_feels_like : ℚ
  main_humidity : ℚ
  main_pressure : ℚ
  weather0_description : String
  wind_speed : ℚ
deriving DecidableEq

/-- fetch_weather_data (weather_agent.py lines 53-79): single request, no
retry; non-200 raises Exception, transport errors propagate. -/
def fetch_weather_data (api : HttpOutcome WeatherJson) : Except PyExc WeatherJson :=
  match api with
  | .response status body =>
    if status = 200 then .ok body
    else .error (.exception ("API request failed with status " ++ toString status))
  | .connectionError => .error .connectionError
  | .timeout => .error .timeout

/-- The parsed record built by parse_weather_data (lines 81-107). -/
structure ParsedWeather where
  city : String
  country : String
  temperature : ℚ
  feels_like : ℚ
  humidity : ℚ
  pressure : ℚ
  description : String
  wind_speed : ℚ
  timestamp : String
deriving DecidableEq

/-- parse_weather_data (lines 81-107): fixed-key field access plus a
timestamp. -/
def parse_weather_data (w : WeatherJson) (now : String) : ParsedWeather :=
  { city := w.name
    country := w.sys_country
    temperature := w.main_temp
    feels_like := w.main_feels_like
    humidity := w.main_humidity
    pressure := w.main_pressure
    description := w.weather0_description
    wind_speed := w.wind_speed
    timestamp := now }

/-- _call_ollama_api (lines 109-153): a 200 response yields the response
field of the body (modelled as the body string); everything else is
re-raised as a generic Exception with the source message. -/
def call_ollama_api (o : HttpOutcome String) : Except PyExc String :=
  match o with
  | .response status body =>
    if status = 200 then .ok body
    else .error (.exception ("Ollama API error: " ++ toString status))
  | .connectionError =>
    .error (.exception
      "Cannot connect to Ollama. Make sure Ollama is running on localhost:11434")
  | .timeout =>
    .error (.exception
      "Ollama request timed out. The model might be too slow or not loaded.")

/-- Models Python str.title(): uppercase the first character of each
alphabetic run, lowercase the rest of the run. -/
def py_title_chars : List Char → Bool → List Char
  | [], _ => []
  | c :: cs, prevAlpha =>
    (if c.isAlpha then (if prevAlpha then c.toLower else c.toUpper) else c)
      :: py_title_chars cs c.isAlpha

/-- Models Python str.title() on a string. -/
def py_title (s : String) : String := String.mk (py_title_chars s.data false)

/-- The Ollama-enhanced report template of generate_report (lines 190-209).
Numeric rendering of the rational fields abstracts the Python float
formatting. -/
def enhanced_report (p : ParsedWeather) (ai_summary : String) : String :=
  "\nWEATHER REPORT\n==============\nCity: " ++ p.city ++ ", " ++ p.country
    ++ "\nDate: " ++ p.timestamp
    ++ "\n\nCurrent Conditions:\n- Temperature: " ++ toString p.temperature
    ++ "°C\n- Feels Like: " ++ toString p.feels_like
    ++ "°C\n- Humidity: " ++ toString p.humidity
    ++ "%\n- Pressure: " ++ toString p.pressure
    ++ " hPa\n- Description: " ++ py_title p.description
    ++ "\n- Wind Speed: " ++ toString p.wind_speed
    ++ " m/s\n\nAI Weather Summary:\n" ++ ai_summary.trim
    ++ "\n\nReport generated by Fixed Automation Weather Agent (Enhanced with Ollama)\n"

/-- The fallback report template of generate_report (lines 216-231). -/
def basic_report (p : ParsedWeather) : String :=
  "\nWEATHER REPORT\n==============\nCity: " ++ p.city ++ ", " ++ p.country
    ++ "\nDate: " ++ p.timestamp
    ++ "\n\nCurrent Conditions:\n- Temperature: " ++ toString p.temperature
    ++ "°C\n- Feels Like: " ++ toString p.feels_like
    ++ "°C\n- Humidity: " ++ toString p.humidity
    ++ "%\n- Pressure: " ++ toString p.pressure
    ++ " hPa\n- Description: " ++ py_title p.description
    ++ "\n- Wind Speed: " ++ toString p.wind_speed
    ++ " m/s\n\nReport generated by Fixed Automation Weather Agent\n"

/-- generate_report (lines 155-233): the Ollama enhancement sits inside a
try/except - on any failure of the generation call the basic report is
produced instead of propagating the error. -/
def generate_report (p : ParsedWeather) (ollama : HttpOutcome String) : String :=
  match call_ollama_api ollama with
  | .ok ai_summary => enhanced_report p ai_summary
  | .error _ => basic_report p

/-- The filename built by save_report (lines 247-249) from the strftime
rendering of the current time. -/
def save_report_filename (ts : String) : String :=
  "weather_report_" ++ ts ++ ".txt"

/-- save_report (lines 235-256): write the report under the timestamped
name inside the output directory.  The filesystem is a list of
path-content pairs; a later write to the same path shadows the earlier. -/
def save_report (output_dir : String) (report : String) (ts : String)
    (fs : List (String × String)) : String × List (String × String) :=
  let filepath := output_dir ++ "/" ++ save_report_filename ts
  (filepath, fs ++ [(filepath, report)])

/-- A save_report call at wall-clock time t, where t counts milliseconds:
strftime with the %Y%m%d_%H%M%S pattern renders only the second part
t / 1000, via the rendering function strf. -/
def save_report_filename_at (strf : Nat → String) (t : Nat) : String :=
  save_report_filename (strf (t / 1000))

/-- run (lines 258-294): the four fixed steps under one try/except; any
exception aborts the run with no recovery (returns False) and nothing is
written.  The result is the success flag and the filesystem after the
run. -/
def run (weather : HttpOutcome WeatherJson) (ollama : HttpOutcome String)
    (now_parse ts_save : String) (output_dir : String)
    (fs : List (String × String)) : Bool × List (String × String) :=
  match fetch_weather_data weather with
  | .error _ => (false, fs)
  | .ok weather_data =>
    let parsed := parse_weather_data weather_data now_parse
    let report := generate_report parsed ollama
    let pr := save_report output_dir report ts_save fs
    (true, pr.2)

/-- A concrete OpenWeatherMap body used by counterexample runs. -/
def sample_weather : WeatherJson :=
  { name := "London"
    sys_country := "GB"
    main_temp := 12
    main_feels_like := 11
    main_humidity := 80
    main_pressure := 1012
    weather0_description := "light rain"
    wind_speed := 4 }

end FixedAutomation

/-!
Helper lemmas about the iteration engine.
-/

namespace ReActAgent

theorem step_dispatch_spec (step : String) (plan : Plan) (ta : TaskAnalysis) :
    (step_dispatch step plan ta).1.success = true ∧
    (step_dispatch step plan ta).2.steps = plan.steps ∧
    (step_dispatch step plan ta).2.current_step = plan.current_step ∧
    (step_dispatch step plan ta).2.completed_steps = plan.completed_steps ∧
    (step_dispatch step plan ta).2.confidence = plan.confidence := by
  unfold step_dispatch
  split
  · simp [execute_weather_step]
  · split
    · simp [execute_activity_step]
    · split
      · simp [execute_contingency_step]
      · simp [execute_general_step]

theorem execute_planning_step_spec (step : String) (idx : Nat) (plan : Plan)
    (ta : TaskAnalysis) (now : Timestamp) :
    (execute_planning_step step idx plan ta now).1.success = true ∧
    (execute_planning_step step idx plan ta now).2.steps = plan.steps ∧
    (execute_planning_step step idx plan ta now).2.current_step = idx + 1 ∧
    (execute_planning_step step idx plan ta now).2.completed_steps.length
      = plan.completed_steps.length + 1 := by
  obtain ⟨h1, h2, h3, h4, h5⟩ := step_dispatch_spec step plan ta
  unfold execute_planning_step
  exact ⟨h1, by simp [h2], by simp, by simp [h4]⟩

theorem update_plan_spec (plan : Plan) (r : ActionResult) (i : Nat)
    (now : Timestamp) :
    (update_plan_based_on_result plan r i now).1.steps = plan.steps ∧
    (update_plan_based_on_result plan r i now).1.current_step = plan.current_step ∧
    (update_plan_based_on_result plan r i now).1.completed_steps
      = plan.completed_steps := by
  simp [update_plan_based_on_result]

theorem determine_next_action_of_lt (plan : Plan) (r : Reasoning)
    (h : plan.current_step < plan.steps.length) :
    determine_next_action plan r
      = .execute_step (plan.steps.get ⟨plan.current_step, h⟩)
          plan.current_step "high" := by
  unfold determine_next_action
  rw [dif_pos h]

theorem planning_loop_iterationsRun_le (analysis : TaskAnalysis)
    (oracle : Nat → Option Reasoning) (clock : Nat → Timestamp) :
    ∀ fuel iter plan hist tick,
      (planning_loop analysis oracle clock fuel iter plan hist tick).iterationsRun
        ≤ iter + fuel := by
  intro fuel
  induction fuel with
  | zero => intro iter plan hist tick; simp [planning_loop]
  | succ fuel ih =>
    intro iter plan hist tick
    simp only [planning_loop]
    split
    · simp
    · split
      · simp
      · exact le_trans (ih (iter + 1) _ _ _) (by omega)

end ReActAgent

namespace ReActAgent

theorem template_lookup_length (tt : String) : (template_lookup tt).length = 5 := by
  unfold template_lookup PLANNING_TEMPLATES
  simp only [List.lookup]
  split
  · rfl
  · split
    · rfl
    · split
      · rfl
      · rfl

theorem planning_loop_spec (analysis : TaskAnalysis)
    (oracle : Nat → Option Reasoning) (clock : Nat → Timestamp) :
    ∀ fuel iter plan hist tick,
      plan.current_step = iter →
      iter + fuel ≤ plan.steps.length →
      loop_invariant plan iter fuel
        (planning_loop analysis oracle clock fuel iter plan hist tick) := by
  intro fuel
  induction fuel with
  | zero =>
    intro iter plan hist tick hcs hlen
    simp [planning_loop, loop_invariant, hcs]
  | succ fuel ih =>
    intro iter plan hist tick hcs hlen
    have hlt : plan.current_step < plan.steps.length := by omega
    simp only [planning_loop]
    rw [determine_next_action_of_lt plan _ hlt]
    simp only [execute_action]
    obtain ⟨hs1, hs2, hs3, hs4⟩ :=
      execute_planning_step_spec (plan.steps.get ⟨plan.current_step, hlt⟩)
        plan.current_step plan analysis (clock tick)
    obtain ⟨hu1, hu2, hu3⟩ :=
      update_plan_spec
        (execute_planning_step (plan.steps.get ⟨plan.current_step, hlt⟩)
          plan.current_step plan analysis (clock tick)).2
        (execute_planning_step (plan.steps.get ⟨plan.current_step, hlt⟩)
          plan.current_step plan analysis (clock tick)).1
        iter (clock (tick + 1))
    split
    · next hcomp =>
      unfold loop_invariant
      dsimp only
      refine ⟨Or.inl ⟨rfl, hcomp⟩, ?_, ?_, ?_, ?_, ?_⟩
      · rw [hu1, hs2]
      · rw [hu2, hs3]; omega
      · rw [hu3, hs4]; omega
      · omega
      · omega
    · next hcomp =>
      have hcs2 :
          (update_plan_based_on_result
            (execute_planning_step (plan.steps.get ⟨plan.current_step, hlt⟩)
              plan.current_step plan analysis (clock tick)).2
            (execute_planning_step (plan.steps.get ⟨plan.current_step, hlt⟩)
              plan.current_step plan analysis (clock tick)).1
            iter (clock (tick + 1))).1.current_step = iter + 1 := by
        simp only [hu2, hs3]; omega
      have hlen2 :
          (iter + 1) + fuel ≤
          (update_plan_based_on_result
            (execute_planning_step (plan.steps.get ⟨plan.current_step, hlt⟩)
              plan.current_step plan analysis (clock tick)).2
            (execute_planning_step (plan.steps.get ⟨plan.current_step, hlt⟩)
              plan.current_step plan analysis (clock tick)).1
            iter (clock (tick + 1))).1.steps.length := by
        rw [hu1, hs2]; omega
      obtain ⟨hinv1, hinv2, hinv3, hinv4, hinv5, hinv6⟩ :=
        ih (iter + 1) _ _ (tick + 2) hcs2 hlen2
      refine ⟨?_, ?_, hinv3, ?_, ?_, ?_⟩
      · rcases hinv1 with h | ⟨h1, h2⟩
        · exact Or.inl h
        · exact Or.inr ⟨h1, by omega⟩
      · rw [hinv2, hu1, hs2]
      · rw [hinv4, hu3, hs4]; omega
      · omega
      · omega

end ReActAgent

namespace ReActAgent

theorem create_initial_plan_current_step (analysis : TaskAnalysis)
    (now : Timestamp) : (create_initial_plan analysis now).current_step = 0 := rfl

theorem create_initial_plan_steps_length (analysis : TaskAnalysis)
    (now : Timestamp) : (create_initial_plan analysis now).steps.length = 5 :=
  template_lookup_length _

theorem create_initial_plan_completed_steps (analysis : TaskAnalysis)
    (now : Timestamp) : (create_initial_plan analysis now).completed_steps = [] := rfl

theorem finalize_plan_completed_steps (plan : Plan) (now : Timestamp) :
    (finalize_plan plan now).completed_steps = plan.completed_steps := rfl

theorem execute_planning_iterations_spec (analysis : TaskAnalysis)
    (oracle : Nat → Option Reasoning) (clock : Nat → Timestamp) (plan : Plan)
    (hist0 : List HistoryEntry) (tick : Nat)
    (hcs : plan.current_step = 0)
    (hlen : MAX_PLANNING_ITERATIONS ≤ plan.steps.length) :
    loop_invariant plan 0 MAX_PLANNING_ITERATIONS
      (execute_planning_iterations analysis oracle clock plan hist0 tick) := by
  unfold execute_planning_iterations
  exact planning_loop_spec analysis oracle clock MAX_PLANNING_ITERATIONS 0 plan
    hist0 tick hcs (by omega)

/-- Claim C2: for every task analysis, oracle behaviour, clock, input plan,
prior history and clock position, the iteration engine
_execute_planning_iterations performs at most
MAX_PLANNING_ITERATIONS = 5 reasoning/action cycles before returning. -/
theorem claim_C2_iteration_budget (analysis : TaskAnalysis)
    (oracle : Nat → Option Reasoning) (clock : Nat → Timestamp) (plan : Plan)
    (hist0 : List HistoryEntry) (tick : Nat) :
    (execute_planning_iterations analysis oracle clock plan hist0
        tick).iterationsRun ≤ MAX_PLANNING_ITERATIONS := by
  unfold execute_planning_iterations
  simpa using planning_loop_iterationsRun_le analysis oracle clock
    MAX_PLANNING_ITERATIONS 0 plan hist0 tick

/-- Claim C3: a run of the iteration engine started on the plan built by
_create_initial_plan exits either by the completeness break - the
_is_planning_complete check: current_step at the template length AND
confidence at the PLANNING_CONFIDENCE_THRESHOLD AND weather_conditions,
activities, contingency_plans all non-empty - or because the fixed
iteration budget MAX_PLANNING_ITERATIONS is exhausted, whichever comes
first; there is no other exit path (in particular no exception escapes),
and on budget exhaustion the plan is returned with no completeness
constraint. -/
theorem claim_C3_exit_conditions (analysis : TaskAnalysis)
    (oracle : Nat → Option Reasoning) (clock : Nat → Timestamp)
    (now : Timestamp) (hist0 : List HistoryEntry) (tick : Nat) :
    ((execute_planning_iterations analysis oracle clock
          (create_initial_plan analysis now) hist0 tick).exit
        = LoopExit.completedEarly
      ∧ is_planning_complete (execute_planning_iterations analysis oracle clock
          (create_initial_plan analysis now) hist0 tick).plan = true)
    ∨ ((execute_planning_iterations analysis oracle clock
          (create_initial_plan analysis now) hist0 tick).exit
        = LoopExit.maxIterations
      ∧ (execute_planning_iterations analysis oracle clock
          (create_initial_plan analysis now) hist0 tick).iterationsRun
        = MAX_PLANNING_ITERATIONS) := by
  obtain ⟨hdisj, -, -, -, -, -⟩ :=
    execute_planning_iterations_spec analysis oracle clock
      (create_initial_plan analysis now) hist0 tick
      (create_initial_plan_current_step analysis now)
      (by rw [create_initial_plan_steps_length]; decide)
  rcases hdisj with h | ⟨h1, h2⟩
  · exact Or.inl h
  · exact Or.inr ⟨h1, by simpa using h2⟩

/-- Claim C10: under the shipped configuration - MAX_PLANNING_ITERATIONS = 5
and every planning template (and the fallback) holding exactly 5 steps -
every action determined during the loop is an execute_step action, so the
finalize_plan arm of _execute_action, which dispatches to the undefined
method _finalize_planning and raises AttributeError, is never reached: no
run of the engine from an initial plan exits with a raised exception.  The
first conjunct exhibits what the finalize_plan arm would do. -/
theorem claim_C10_finalize_branch_unreachable (analysis : TaskAnalysis)
    (oracle : Nat → Option Reasoning) (clock : Nat → Timestamp)
    (now : Timestamp) (hist0 : List HistoryEntry) (tick : Nat) (plan : Plan)
    (prio : String) (ts : Timestamp) :
    execute_action (NextAction.finalize_plan prio) plan analysis ts
        = .error (PyError.attributeError "_finalize_planning")
    ∧ ((execute_planning_iterations analysis oracle clock
        (create_initial_plan analysis now) hist0 tick).exit).isRaised
      = false := by
  refine ⟨rfl, ?_⟩
  obtain ⟨hdisj, -, -, -, -, -⟩ :=
    execute_planning_iterations_spec analysis oracle clock
      (create_initial_plan analysis now) hist0 tick
      (create_initial_plan_current_step analysis now)
      (by rw [create_initial_plan_steps_length]; decide)
  rcases hdisj with ⟨h, -⟩ | ⟨h, -⟩ <;> rw [h] <;> rfl

/-- Claim C6: plan_weather_activity never fails and always returns a plan
with exactly 5 entries in completed_steps - in particular for the literal
task resolving to the 5-step outdoor_activity template, since every
template (and the fallback) has exactly 5 steps and exactly one
completed-step record is appended per executed step. -/
theorem claim_C6_five_completed_steps (call_result : Except String String)
    (parse_json : String → Option TaskAnalysis)
    (oracle : Nat → Option Reasoning) (clock : Nat → Timestamp) :
    ∃ plan hist,
      plan_weather_activity call_result parse_json oracle clock
        = .ok (plan, hist)
      ∧ plan.completed_steps.length = 5 := by
  unfold plan_weather_activity
  dsimp only
  obtain ⟨hdisj, hsteps, hcur, hcomp, hlo, hhi⟩ :=
    execute_planning_iterations_spec (analyze_task call_result parse_json)
      oracle clock
      (create_initial_plan (analyze_task call_result parse_json) (clock 0))
      [] 1
      (create_initial_plan_current_step _ _)
      (by rw [create_initial_plan_steps_length]; decide)
  have hrun :
      (execute_planning_iterations (analyze_task call_result parse_json)
        oracle clock
        (create_initial_plan (analyze_task call_result parse_json) (clock 0))
        [] 1).iterationsRun = 5 := by
    rcases hdisj with ⟨-, hc⟩ | ⟨-, h2⟩
    · simp only [is_planning_complete, Bool.and_eq_true, decide_eq_true_eq] at hc
      have h5 := create_initial_plan_steps_length
        (analyze_task call_result parse_json) (clock 0)
      rw [← hsteps] at h5
      have := hc.1
      simp only [MAX_PLANNING_ITERATIONS] at hhi
      omega
    · simpa [MAX_PLANNING_ITERATIONS] using h2
  have hlen5 :
      (execute_planning_iterations (analyze_task call_result parse_json)
        oracle clock
        (create_initial_plan (analyze_task call_result parse_json) (clock 0))
        [] 1).plan.completed_steps.length = 5 := by
    rw [create_initial_plan_completed_steps] at hcomp
    simp only [List.length_nil] at hcomp
    omega
  set r := execute_planning_iterations (analyze_task call_result parse_json)
    oracle clock
    (create_initial_plan (analyze_task call_result parse_json) (clock 0)) [] 1
    with hrdef
  rcases hdisj with ⟨hexit, -⟩ | ⟨hexit, -⟩
  · refine ⟨finalize_plan r.plan (clock r.tick), r.history, ?_, ?_⟩
    · rw [hexit]
    · rw [finalize_plan_completed_steps]; exact hlen5
  · refine ⟨finalize_plan r.plan (clock r.tick), r.history, ?_, ?_⟩
    · rw [hexit]
    · rw [finalize_plan_completed_steps]; exact hlen5

end ReActAgent

namespace ReActAgent

/-- Counterexample to claim C1 as stated: the claim quantifies over every
initial confidence value taken from the task analysis record, but
_update_plan_based_on_result clamps only one side per branch.  With a task
analysis whose confidence is -5, _create_initial_plan copies -5 into the
plan unclamped, and the confidence update of a successful first iteration
yields min(-5 + 0.1, 1.0) = -4.9, outside [0.0, 1.0]. -/
theorem claim_C1_counterexample :
    (update_plan_based_on_result
        (create_initial_plan
          { default_task_analysis with confidence := some (-5) } "t0")
        { status := "weather_analyzed", success := true,
          message := some "Weather conditions analyzed successfully" }
        0 "t1").1.confidence = -49/10
    ∧ ¬ (0 ≤ (update_plan_based_on_result
          (create_initial_plan
            { default_task_analysis with confidence := some (-5) } "t0")
          { status := "weather_analyzed", success := true,
            message := some "Weather conditions analyzed successfully" }
          0 "t1").1.confidence
        ∧ (update_plan_based_on_result
          (create_initial_plan
            { default_task_analysis with confidence := some (-5) } "t0")
          { status := "weather_analyzed", success := true,
            message := some "Weather conditions analyzed successfully" }
          0 "t1").1.confidence ≤ 1) := by
  have h : (update_plan_based_on_result
      (create_initial_plan
        { default_task_analysis with confidence := some (-5) } "t0")
      { status := "weather_analyzed", success := true,
        message := some "Weather conditions analyzed successfully" }
      0 "t1").1.confidence = -49/10 := by
    simp [update_plan_based_on_result, create_initial_plan, min_def]
    norm_num
  refine ⟨h, ?_⟩
  rw [h]
  norm_num

/-- Claim C1 (amended): after an iterations confidence update the plans
confidence lies in [0.0, 1.0] provided the confidence entering the update
lies in [0.0, 1.0].  The initial confidence is copied from the task
analysis record without clamping, so the claim holds for every analysis
whose confidence is in [0.0, 1.0], but not regardless of it: each branch
of the update clamps one side only. -/
theorem claim_C1_confidence_clamped (plan : Plan) (result : ActionResult)
    (iteration : Nat) (now : Timestamp)
    (h0 : 0 ≤ plan.confidence) (h1 : plan.confidence ≤ 1) :
    0 ≤ (update_plan_based_on_result plan result iteration now).1.confidence
    ∧ (update_plan_based_on_result plan result iteration now).1.confidence
      ≤ 1 := by
  unfold update_plan_based_on_result
  dsimp only
  cases hs : result.success
  · simp only [hs, Bool.false_eq_true, if_false]
    exact ⟨le_max_right _ _, max_le (by linarith) (by norm_num)⟩
  · simp only [hs, if_true]
    exact ⟨le_min (by linarith) (by norm_num), min_le_right _ _⟩

theorem claim_C1_confidence_clamped_witness :
    0 ≤ (update_plan_based_on_result
        (create_initial_plan default_task_analysis "t0")
        { status := "weather_analyzed", success := true,
          message := some "Weather conditions analyzed successfully" }
        0 "t1").1.confidence
    ∧ (update_plan_based_on_result
        (create_initial_plan default_task_analysis "t0")
        { status := "weather_analyzed", success := true,
          message := some "Weather conditions analyzed successfully" }
        0 "t1").1.confidence ≤ 1 :=
  claim_C1_confidence_clamped _ _ 0 "t1"
    (by norm_num [create_initial_plan, default_task_analysis])
    (by norm_num [create_initial_plan, default_task_analysis])

/-- Counterexample to claim C4 as stated: after the first successful
iteration update, the plan status is the string planning_in_progress,
which is none of planning, completed, failed. -/
theorem claim_C4_counterexample :
    (update_plan_based_on_result
        (create_initial_plan default_task_analysis "t0")
        { status := "weather_analyzed", success := true,
          message := some "Weather conditions analyzed successfully" }
        0 "t1").1.status = "planning_in_progress"
    ∧ "planning_in_progress" ∉ (["planning", "completed", "failed"] : List String) :=
  ⟨rfl, by decide⟩

/-- Claim C4 (amended): the status field ranges over exactly the four
strings planning, planning_in_progress, planning_failed, completed: a plan
starts as planning, each iteration update sets planning_in_progress after a
successful action and planning_failed after an unsuccessful one (also in
the snapshot stored in the history entry), and only _finalize_plan sets
completed. -/
theorem claim_C4_status_machine (analysis : TaskAnalysis)
    (now1 now2 now3 : Timestamp) (plan : Plan) (result : ActionResult)
    (iteration : Nat) :
    (create_initial_plan analysis now1).status = "planning"
    ∧ (update_plan_based_on_result plan result iteration now2).1.status
        = (if result.success then "planning_in_progress"
           else "planning_failed")
    ∧ (update_plan_based_on_result plan result iteration now2).2.plan_state.status
        = (if result.success then "planning_in_progress"
           else "planning_failed")
    ∧ (finalize_plan plan now3).status = "completed" := by
  refine ⟨rfl, ?_, ?_, rfl⟩ <;> simp [update_plan_based_on_result]

/-- Claim C5: if the generation call raises (the Except.error case) or its
response is not valid JSON (parse_json returns none) on every invocation,
then _analyze_task returns the hard-coded default analysis record,
deterministically; the single call_result argument is consumed once, so
there are no retries. -/
theorem claim_C5_default_on_total_failure (call_result : Except String String)
    (parse_json : String → Option TaskAnalysis)
    (h : ∀ s, call_result = .ok s → parse_json s = none) :
    analyze_task call_result parse_json = default_task_analysis := by
  cases call_result with
  | error e => rfl
  | ok s =>
    have hp := h s rfl
    simp [analyze_task, hp]

theorem claim_C5_default_on_total_failure_witness :
    analyze_task
      (.error "Cannot connect to Ollama. Make sure Ollama is running on localhost:11434")
      (fun _ => none) = default_task_analysis :=
  claim_C5_default_on_total_failure _ _ (fun _ _ => rfl)

/-- Counterexample to claim C9 as stated: plan.copy() is a shallow copy, so
a history entry does not freeze the completed_steps list.  After the first
iteration the first history entry observes 1 completed-step record through
its completed_steps reference; after the second iteration the same entry
observes 2: the snapshot was modified by the later iteration. -/
theorem claim_C9_counterexample :
    (heap_demo_state_1.history.map
        (fun e => (observed_completed_steps heap_demo_state_1 e.2).length))
      = [1]
    ∧ (heap_demo_state_2.history.map
        (fun e => (observed_completed_steps heap_demo_state_2 e.2).length))
      = [2, 2] := by
  exact ⟨rfl, rfl⟩

/-- Claim C9 (amended): every history entry appended by an iteration
records a SHALLOW copy of the plan: entries are append-only (each iteration
extends the history by exactly one entry and never removes or rewrites the
stored records), and the entry value itself - status, confidence,
current_step and the rebound collection fields - is not modified by later
iterations; but the completed_steps list object is shared with the live
plan (same reference), and each later executed step appends one record to
that shared list, so the list a snapshot observes does grow. -/
theorem claim_C9_shallow_snapshot (step : String) (idx iteration : Nat)
    (result : ActionResult) (now1 now2 : Timestamp) (s : HeapState) :
    (iteration_h step idx iteration result now1 now2 s).history
      = s.history
        ++ [(iteration, (iteration_h step idx iteration result now1 now2 s).plan)]
    ∧ (iteration_h step idx iteration result now1 now2 s).plan.completed_steps_ref
        = s.plan.completed_steps_ref
    ∧ observed_completed_steps
        (iteration_h step idx iteration result now1 now2 s) s.plan
      = observed_completed_steps s s.plan
        ++ [{ step := step, step_index := idx, result := result,
              completed_at := now1 }] := by
  refine ⟨?_, rfl, ?_⟩
  · simp [iteration_h, update_plan_based_on_result_h, execute_planning_step_h]
  · simp [iteration_h, update_plan_based_on_result_h, execute_planning_step_h,
      observed_completed_steps, heap_write]

end ReActAgent

namespace FixedAutomation

/-- Counterexample to claim C7 as stated: a connection-error failure of the
Ollama call inside generate_report does not abort the run - the run
succeeds and a (basic) report file is still produced, because the Ollama
enhancement sits in its own try/except with a fallback template. -/
theorem claim_C7_counterexample :
    (run (.response 200 sample_weather) .connectionError "t-parse"
        "20260101_000000" "weather_reports" []).1 = true
    ∧ ((run (.response 200 sample_weather) .connectionError "t-parse"
        "20260101_000000" "weather_reports" []).2).length = 1 := by
  exact ⟨rfl, rfl⟩

/-- Claim C7 (amended): any failure of the weather-data fetch - non-200
status, connection error or timeout - raises immediately and aborts the
whole run with no recovery and no report written; a failure of the Ollama
enhancement call inside generate_report, however, is caught, and a basic
(non-enhanced) report is still produced and saved. -/
theorem claim_C7_abort_and_ollama_fallback (b w : WeatherJson)
    (ollama : HttpOutcome String) (s : Nat) (np ts dir : String)
    (fs : List (String × String)) (e : PyExc) :
    (s ≠ 200 → run (.response s b) ollama np ts dir fs = (false, fs))
    ∧ run .connectionError ollama np ts dir fs = (false, fs)
    ∧ run .timeout ollama np ts dir fs = (false, fs)
    ∧ (call_ollama_api ollama = .error e →
        run (.response 200 w) ollama np ts dir fs
          = (true, fs ++ [(dir ++ "/" ++ save_report_filename ts,
              basic_report (parse_weather_data w np))])) := by
  refine ⟨?_, rfl, rfl, ?_⟩
  · intro hs
    simp [run, fetch_weather_data, hs]
  · intro he
    simp [run, fetch_weather_data, generate_report, he, save_report]

theorem claim_C7_abort_and_ollama_fallback_witness :
    run (.response 404 sample_weather) .timeout "tp" "20260101_000000"
        "weather_reports" [] = (false, [])
    ∧ run (.response 200 sample_weather) .timeout "tp" "20260101_000000"
        "weather_reports" []
      = (true, [] ++ [("weather_reports" ++ "/"
            ++ save_report_filename "20260101_000000",
          basic_report (parse_weather_data sample_weather "tp"))]) :=
  ⟨(claim_C7_abort_and_ollama_fallback sample_weather sample_weather .timeout
      404 "tp" "20260101_000000" "weather_reports" []
      (.exception "Ollama request timed out. The model might be too slow or not loaded.")).1
      (by decide),
   (claim_C7_abort_and_ollama_fallback sample_weather sample_weather .timeout
      404 "tp" "20260101_000000" "weather_reports" []
      (.exception "Ollama request timed out. The model might be too slow or not loaded.")).2.2.2
      rfl⟩

/-- Counterexample to claim C8 as stated: two save_report calls at distinct
wall-clock times within the same second (millisecond times 1000 and 1500)
produce EQUAL filenames, because the strftime timestamp has second-level
resolution - the filenames are not always distinct. -/
theorem claim_C8_counterexample :
    save_report_filename_at toString 1000 = save_report_filename_at toString 1500
    ∧ (1000 : Nat) ≠ 1500 :=
  ⟨rfl, by decide⟩

/-- Claim C8 (amended): any two save_report filenames differ only in the
embedded second-resolution timestamp: each filename is exactly the fixed
prefix, the rendered timestamp of the calls second, and the fixed suffix;
two calls produce distinct filenames exactly when their rendered
second-level timestamps differ, and calls within the same second collide
(the later write overwrites the earlier file). -/
theorem claim_C8_filenames (strf : Nat → String) (t1 t2 : Nat) :
    save_report_filename_at strf t1
      = "weather_report_" ++ strf (t1 / 1000) ++ ".txt"
    ∧ (strf (t1 / 1000) ≠ strf (t2 / 1000) →
        save_report_filename_at strf t1 ≠ save_report_filename_at strf t2)
    ∧ (t1 / 1000 = t2 / 1000 →
        save_report_filename_at strf t1 = save_report_filename_at strf t2) := by
  refine ⟨rfl, ?_, ?_⟩
  · intro hne heq
    apply hne
    have h2 := congrArg String.data heq
    simp only [save_report_filename_at, save_report_filename,
      String.data_append] at h2
    exact String.ext (List.append_cancel_left (List.append_cancel_right h2))
  · intro he
    unfold save_report_filename_at
    rw [he]

theorem claim_C8_filenames_witness :
    save_report_filename_at toString 1000 ≠ save_report_filename_at toString 2000
    ∧ save_report_filename_at toString 1000 = save_report_filename_at toString 1500 :=
  ⟨(claim_C8_filenames toString 1000 2000).2.1 (by decide),
   (claim_C8_filenames toString 1000 1500).2.2 (by decide)⟩

end FixedAutomation
